import Mathlib

/-!
Shallow embedding of the RERA scraping controller
(`backend/app/scraper/scraper.py`, class `RERAScraperController`).

Browser interaction is modelled by explicit environment records that
describe what each DOM lookup / navigation probe would observe; the
Python control flow over those observations is translated faithfully.
Python dictionaries become insertion-ordered association lists and
Python string operations (`strip`, `lower`, `split`, `replace`) are
given executable definitions matching Python semantics on the
character sets that occur in the program.
-/

/-! ### Python string primitives -/

/-- Whitespace characters removed by Python `str.strip()` (ASCII range). -/
def isPySpace (c : Char) : Bool :=
  c = ' ' || c = '\t' || c = '\n' || c = '\r' || c = '\x0b' || c = '\x0c'

/-- `str.strip()` on a character list: drop whitespace from both ends. -/
def stripChars (l : List Char) : List Char :=
  ((l.dropWhile isPySpace).reverse.dropWhile isPySpace).reverse

/-- Python `s.strip()`. -/
def pyStrip (s : String) : String :=
  ⟨stripChars s.data⟩

/-- Python `s.lower()` (ASCII letters). -/
def pyLower (s : String) : String :=
  ⟨s.data.map Char.toLower⟩

/-- Python `s.replace(' ', '_')`. -/
def underscoreSpaces (s : String) : String :=
  ⟨s.data.map (fun c => if c = ' ' then '_' else c)⟩

/-- Python `s.replace("by ", "")`: drop every occurrence of `"by "`,
scanning left to right. -/
def removeByChars : List Char → List Char
  | 'b' :: 'y' :: ' ' :: rest => removeByChars rest
  | c :: rest => c :: removeByChars rest
  | [] => []

/-- Python `s.replace("by ", "")`. -/
def removeBy (s : String) : String :=
  ⟨removeByChars s.data⟩

/-- Python `s.split(sep)` for a one-character separator: splits on every
occurrence, keeping empty pieces (`"".split(c) = [""]`). -/
def splitOnChar (sep : Char) : List Char → List (List Char)
  | [] => [[]]
  | c :: cs =>
    if c = sep then [] :: splitOnChar sep cs
    else
      match splitOnChar sep cs with
      | [] => [[c]]
      | h :: t => (c :: h) :: t

/-- Python `s.split('\n')`. -/
def splitLines (s : String) : List String :=
  (splitOnChar '\n' s.data).map (fun l => ⟨l⟩)

/-- Number of `':'` characters in a string.  Python's
`':' in line and len(line.split(':')) == 2` holds iff this count is 1. -/
def countColons (s : String) : Nat :=
  s.data.count ':'

/-- Split a character list at the first `':'` (Python `split(':', 1)`):
returns the part before and the part after the first colon. -/
def splitAtFirstColon : List Char → List Char × List Char
  | [] => ([], [])
  | c :: cs =>
    if c = ':' then ([], cs)
    else
      let p := splitAtFirstColon cs
      (c :: p.1, p.2)

/-- Python `key, value = line.split(':', 1)`. -/
def splitFirstColon (s : String) : String × String :=
  let p := splitAtFirstColon s.data
  (⟨p.1⟩, ⟨p.2⟩)

/-! ### Python dictionaries -/

/-- A Python `dict` with string keys and values: insertion-ordered
association list, no duplicate keys (assignment overwrites in place). -/
abbrev Dict := List (String × String)

/-- Python `d.get(k, dflt)`. -/
def Dict.get : Dict → String → String → String
  | [], _, dflt => dflt
  | (k', v') :: rest, k, dflt => if k' = k then v' else Dict.get rest k dflt

/-- Python `d[k] = v`: overwrite in place if present, else append. -/
def Dict.insert : Dict → String → String → Dict
  | [], k, v => [(k, v)]
  | (k', v') :: rest, k, v =>
    if k' = k then (k', v) :: rest else (k', v') :: Dict.insert rest k v

/-- Python `d.update(e)`: assign every binding of `e` into `d`, in order. -/
def Dict.update (d e : Dict) : Dict :=
  e.foldl (fun acc kv => Dict.insert acc kv.1 kv.2) d

theorem Dict.insert_ne_nil (d : Dict) (k v : String) : Dict.insert d k v ≠ [] := by
  cases d with
  | nil => simp [Dict.insert]
  | cons kv rest =>
    cases kv with
    | mk k' v' =>
      simp only [Dict.insert]
      by_cases h : k' = k <;> simp [h]

theorem Dict.foldl_insert_ne_nil (e : Dict) (d : Dict) (hd : d ≠ []) :
    e.foldl (fun acc kv => Dict.insert acc kv.1 kv.2) d ≠ [] := by
  induction e generalizing d with
  | nil => simpa
  | cons kv rest ih =>
    exact ih (Dict.insert d kv.1 kv.2) (Dict.insert_ne_nil d kv.1 kv.2)

theorem Dict.update_ne_nil (d e : Dict) (he : e ≠ []) : Dict.update d e ≠ [] := by
  cases e with
  | nil => exact absurd rfl he
  | cons kv rest =>
    simp only [Dict.update, List.foldl_cons]
    exact Dict.foldl_insert_ne_nil rest _ (Dict.insert_ne_nil d kv.1 kv.2)

/-! ### Card Extractor (`_extract_basic_info`) -/

/-- What the DOM lookups of `_extract_basic_info` observe on one listing
card.  `none` means the corresponding `find_element` raises
`NoSuchElementException`.  `labels` lists each `.label-control` element's
text together with the text of its `following-sibling::strong`, when that
sibling lookup succeeds. -/
structure CardElem where
  title : Option String
  small : Option String
  labels : List (String × Option String)
  units : Option String
  regNumber : Option String
  certLink : Option String
deriving Repr, DecidableEq

/-- The `data_dict` built from the `.label-control` loop: label text is
stripped, the sibling value is stripped; a failing sibling lookup
contributes nothing. -/
def labelDict (labels : List (String × Option String)) : Dict :=
  labels.foldl
    (fun d lv =>
      match lv.2 with
      | some v => Dict.insert d (pyStrip lv.1) (pyStrip v)
      | none => d)
    []

/-- `_extract_basic_info`.  The card-title and the `small` (developer)
lookups sit directly inside the function's single `try`, so either one
failing aborts to the `except` branch, which returns `{}`; the units,
registration-number and certificate-link lookups each have their own
inner `try` with an empty-string fallback. -/
def extract_basic_info (c : CardElem) : Dict :=
  match c.title with
  | none => []
  | some t =>
    match c.small with
    | none => []
    | some s =>
      let data_dict := labelDict c.labels
      [("project_name", pyStrip t),
       ("developer", pyStrip (removeBy s)),
       ("address", data_dict.get "Address" ""),
       ("project_type", data_dict.get "Project Type" ""),
       ("started_from", data_dict.get "Started From" ""),
       ("possession_by", data_dict.get "Possession by" ""),
       ("units", (c.units.map pyStrip).getD ""),
       ("registration_number", (c.regNumber.map pyStrip).getD ""),
       ("certificate_link", c.certLink.getD "")]

/-! ### Detail Navigator (`_get_detailed_info`) -/

/-- Observed outcome of clicking a card's "View Details" control, as
classified by `_get_detailed_info`: a new window opened (its URL and the
fields extracted there), a same-window navigation (new URL and fields), an
in-page modal (fields only; the listing URL doubles as detail URL), or an
exception anywhere in the `try` block before the URL bookkeeping, carrying
whatever fields were gathered up to that point. -/
inductive NavOutcome where
  | newWindow (url : String) (info : Dict)
  | sameWindow (url : String) (info : Dict)
  | modal (info : Dict)
  | failed (partialInfo : Dict)
deriving Repr, DecidableEq

/-- Environment of one `_get_detailed_info` call: whether the re-fetched
card list still contains `card_index`, the listing URL before the click,
and the navigation outcome. -/
structure DetailEnv where
  present : Bool
  currentUrl : String
  outcome : NavOutcome
deriving Repr, DecidableEq

/-- `_get_detailed_info`: returns the `detailed_info` dictionary together
with the URL appended to `self.detail_urls` (if any).  A URL is appended
exactly when a non-empty `detail_url` was resolved, and in that case
`detail_page_url` is first written into the dictionary. -/
def get_detailed_info (e : DetailEnv) : Dict × Option String :=
  if !e.present then ([], none)
  else
    match e.outcome with
    | NavOutcome.newWindow u info =>
      if u ≠ "" then (Dict.insert info "detail_page_url" u, some u) else (info, none)
    | NavOutcome.sameWindow u info =>
      if u ≠ "" then (Dict.insert info "detail_page_url" u, some u) else (info, none)
    | NavOutcome.modal info =>
      if e.currentUrl ≠ "" then
        (Dict.insert info "detail_page_url" e.currentUrl, some e.currentUrl)
      else (info, none)
    | NavOutcome.failed p => (p, none)

/-! ### Per-card processing (`extract_proj_data`, `scrape_active_proj`) -/

/-- Everything one card's processing observes. -/
structure CardEnv where
  elem : CardElem
  detail : DetailEnv
deriving Repr, DecidableEq

/-- `extract_proj_data`: basic card fields, then detail enrichment; the
detail dictionary is merged only when non-empty (Python truthiness).
Returns the record together with the detail URL appended during the call.
Its own `except` branch is unreachable because both callees catch all
their exceptions internally. -/
def extract_proj_data (c : CardEnv) : Dict × Option String :=
  let basic := extract_basic_info c.elem
  let di := get_detailed_info c.detail
  (if di.1 ≠ [] then Dict.update basic di.1 else basic, di.2)

/-- Accumulation state held on the controller instance:
`self.projects` and `self.detail_urls`. -/
structure ScrState where
  projects : List Dict
  detailUrls : List String
deriving Repr, DecidableEq

/-- One iteration of the `scrape_active_proj` loop body for a present
card: `_get_detailed_info` appends the detail URL (inside
`extract_proj_data`), and the record is appended when truthy (non-empty). -/
def processCard (s : ScrState) (c : CardEnv) : ScrState :=
  let r := extract_proj_data c
  { projects := if r.1 ≠ [] then s.projects ++ [r.1] else s.projects,
    detailUrls := s.detailUrls ++ r.2.toList }

/-- `scrape_active_proj`: `for i in range(6)`, processing card `i` only
when `i < len(current_cards)` — i.e. the first `min 6 (len cards)` cards. -/
def scrape_active_proj (s : ScrState) (cards : List CardEnv) : ScrState :=
  (cards.take 6).foldl processCard s

/-! ### Pagination Traversal (`scrape_6_project`) -/

/-- One listing page as the traversal observes it: the cards present, and
whether the "next page" control is found, enabled, and clicks without
raising. -/
structure PageEnv where
  cards : List CardEnv
  nextOk : Bool
deriving Repr, DecidableEq

/-- The loop-top test `if max_proj and project_num > max_proj`.  Python
truthiness: `max_proj = None` and `max_proj = 0` both skip the test. -/
def capStop (maxProj : Option Int) (pageNum : Int) : Bool :=
  match maxProj with
  | none => false
  | some c => c != 0 && pageNum > c

/-- `scrape_6_project`: page-counter loop.  Returns the final state and
the number of "next page" activations performed.  The environment list is
the sequence of page contents the traversal would see; an exhausted list
means the next-button lookup raises (loop breaks). -/
def scrape_6_project (maxProj : Option Int) : Int → ScrState → List PageEnv → ScrState × Nat
  | _, s, [] => (s, 0)
  | pageNum, s, p :: rest =>
    if capStop maxProj pageNum then (s, 0)
    else
      let s1 := scrape_active_proj s p.cards
      if p.nextOk then
        let r := scrape_6_project maxProj (pageNum + 1) s1 rest
        (r.1, r.2 + 1)
      else (s1, 0)

/-! ### Entry point (`get_projects`) -/

/-- Environment of one `get_projects` invocation: whether
`setup_drive` succeeds, whether `driver.get` plus the wait for the first
`.project-card` succeed, and the pages subsequently seen. -/
structure RunEnv where
  setupOk : Bool
  waitOk : Bool
  pages : List PageEnv
deriving Repr, DecidableEq

/-- The envelope returned by `get_projects`.  The `detail_urls` key
exists only in the success branch, hence the `Option`. -/
structure Envelope where
  success : Bool
  message : String
  data : List Dict
  total_projects : Nat
  total_urls : Nat
  detailUrls : Option (List String)
deriving Repr, DecidableEq

/-- `get_projects`.  NOTE: the `maxProj` argument is accepted but the
body calls `self.scrape_6_project(6)` with the literal `6` (scraper.py
line 82), so `maxProj` is never consulted.  The accumulation state is
never reset, and on the exception path the partially (or previously)
accumulated `self.projects` / `self.detail_urls` are reported. -/
def get_projects (st : ScrState) (env : RunEnv) (maxProj : Option Int) :
    Envelope × ScrState :=
  if !env.setupOk then
    ({ success := false,
       message := "Failed to initialize web driver",
       data := [], total_projects := 0, total_urls := 0, detailUrls := none }, st)
  else if !env.waitOk then
    ({ success := false,
       message := "Scraping failed: timeout waiting for project-card",
       data := st.projects,
       total_projects := st.projects.length,
       total_urls := st.detailUrls.length,
       detailUrls := none }, st)
  else
    let st1 := (scrape_6_project (some 6) 1 st env.pages).1
    ({ success := true,
       message := "Successfully scraped " ++ toString st1.projects.length ++ " projects",
       data := st1.projects,
       total_projects := st1.projects.length,
       total_urls := st1.detailUrls.length,
       detailUrls := some st1.detailUrls }, st1)

/-- Number of "next page" activations a `get_projects` invocation
performs (0 when setup or the initial wait fails). -/
def get_projects_activations (env : RunEnv) (maxProj : Option Int) : Nat :=
  if !env.setupOk then 0
  else if !env.waitOk then 0
  else (scrape_6_project (some 6) 1 ⟨[], []⟩ env.pages).2

/-! ### Registration lookup (`get_project_by_registration`) -/

/-- Result of `get_project_by_registration`: the scrape's failure
envelope is forwarded verbatim when the internal `get_projects` fails;
otherwise either the first matching record or a not-found report. -/
inductive RegResult where
  | scrapeFailed (e : Envelope)
  | found (p : Dict)
  | notFound (query : String)
deriving Repr, DecidableEq

/-- The `for project in result["data"]` loop: first record whose stripped
`registration_number` equals the stripped query. -/
def findByReg : List Dict → String → Option Dict
  | [], _ => none
  | p :: rest, q =>
    if pyStrip (p.get "registration_number" "") = pyStrip q then some p
    else findByReg rest q

/-- `get_project_by_registration`: re-runs the full scrape, forwards a
failed envelope, else scans for an exact match after stripping both
sides. -/
def get_project_by_registration (st : ScrState) (env : RunEnv) (q : String) :
    RegResult × ScrState :=
  let r := get_projects st env none
  if !r.1.success then (RegResult.scrapeFailed r.1, r.2)
  else
    match findByReg r.1.data q with
    | some p => (RegResult.found p, r.2)
    | none => (RegResult.notFound q, r.2)

/-! ### Export (`export_to_format`) -/

/-- Observable effects of `export_to_format`: the internal re-scrape
performed when no records are held, and a file write. -/
inductive Effect where
  | scrapeRun
  | fileWrite (filename : String) (fmt : String)
deriving Repr, DecidableEq

/-- Result of `export_to_format`. -/
structure ExportResult where
  success : Bool
  message : String
  filename : Option String
deriving Repr, DecidableEq

/-- Format dispatch of `export_to_format` after the possible re-scrape:
`format_type.lower()` against `"csv"`, `"excel"`, `"json"`, else the
unsupported-format rejection. -/
def exportDispatch (st : ScrState) (format_type : String) (filename : Option String)
    (timestamp : String) (effs : List Effect) :
    ExportResult × ScrState × List Effect :=
  if pyLower format_type = "csv" then
    let fn := filename.getD ("rera_projects_" ++ timestamp ++ ".csv")
    ({ success := true, message := "Data exported successfully to " ++ fn,
       filename := some fn }, st, effs ++ [Effect.fileWrite fn "csv"])
  else if pyLower format_type = "excel" then
    let fn := filename.getD ("rera_projects_" ++ timestamp ++ ".xlsx")
    ({ success := true, message := "Data exported successfully to " ++ fn,
       filename := some fn }, st, effs ++ [Effect.fileWrite fn "excel"])
  else if pyLower format_type = "json" then
    let fn := filename.getD ("rera_projects_" ++ timestamp ++ ".json")
    ({ success := true, message := "Data exported successfully to " ++ fn,
       filename := some fn }, st, effs ++ [Effect.fileWrite fn "json"])
  else
    ({ success := false,
       message := "Unsupported format. Use json, csv, or excel",
       filename := none }, st, effs)

/-- `export_to_format`: when `self.projects` is empty (Python falsy) it
first re-runs the whole scrape — an I/O-performing step — and only
afterwards examines the format string. -/
def export_to_format (st : ScrState) (env : RunEnv) (format_type : String)
    (filename : Option String) (timestamp : String) :
    ExportResult × ScrState × List Effect :=
  if st.projects = [] then
    let r := get_projects st env none
    if !r.1.success then
      ({ success := false, message := "No data to export", filename := none },
       r.2, [Effect.scrapeRun])
    else exportDispatch r.2 format_type filename timestamp [Effect.scrapeRun]
  else exportDispatch st format_type filename timestamp []

/-! ### Promoter Extractor (`_extract_promoter_content`) -/

/-- One `"label: value"` line of a promoter card body: the line is
stripped; if it contains exactly one colon it is split at that colon, the
key part is stripped, lower-cased, space-replaced and prefixed with
`promoter_`, and the stripped value part is assigned; otherwise the line
contributes nothing. -/
def promoterLine (d : Dict) (line : String) : Dict :=
  let l := pyStrip line
  if countColons l = 1 then
    let kv := splitFirstColon l
    Dict.insert d ("promoter_" ++ underscoreSpaces (pyLower (pyStrip kv.1))) (pyStrip kv.2)
  else d

/-- One `.card-body` iteration: store the stripped text under
`promoter_card_{i+1}` when non-empty, then parse its lines. -/
def promoterBody (d : Dict) (i : Nat) (text : String) : Dict :=
  let ct := pyStrip text
  let d1 := if ct ≠ "" then Dict.insert d ("promoter_card_" ++ toString (i + 1)) ct else d
  (splitLines ct).foldl promoterLine d1

/-- `_extract_promoter_content`: `none` means every promoter-section
selector failed (empty result); otherwise the list of `.card-body`
element texts is processed in order. -/
def extract_promoter_content (section? : Option (List String)) : Dict :=
  match section? with
  | none => []
  | some bodies =>
    (bodies.enum.foldl (fun d it => promoterBody d it.1 it.2) [])

/-! ### Helper lemmas -/

/-- A detail URL is appended only when non-empty, and in that case the
returned dictionary is non-empty (it received `detail_page_url`). -/
theorem get_detailed_info_url (e : DetailEnv) (u : String)
    (h : (get_detailed_info e).2 = some u) :
    u ≠ "" ∧ (get_detailed_info e).1 ≠ [] := by
  obtain ⟨p, cu, o⟩ := e
  cases p with
  | false => simp [get_detailed_info] at h
  | true =>
    cases o with
    | newWindow u0 info =>
      by_cases hu : u0 = ""
      · simp [get_detailed_info, hu] at h
      · simp only [get_detailed_info, Bool.not_true, Bool.false_eq_true, if_false, ne_eq, hu,
          not_false_iff, if_true, Option.some.injEq] at h ⊢
        subst h
        exact ⟨hu, Dict.insert_ne_nil _ _ _⟩
    | sameWindow u0 info =>
      by_cases hu : u0 = ""
      · simp [get_detailed_info, hu] at h
      · simp only [get_detailed_info, Bool.not_true, Bool.false_eq_true, if_false, ne_eq, hu,
          not_false_iff, if_true, Option.some.injEq] at h ⊢
        subst h
        exact ⟨hu, Dict.insert_ne_nil _ _ _⟩
    | modal info =>
      by_cases hu : cu = ""
      · simp [get_detailed_info, hu] at h
      · simp only [get_detailed_info, Bool.not_true, Bool.false_eq_true, if_false, ne_eq, hu,
          not_false_iff, if_true, Option.some.injEq] at h ⊢
        subst h
        exact ⟨hu, Dict.insert_ne_nil _ _ _⟩
    | failed q => simp [get_detailed_info] at h

/-- Whenever a card's processing appends a detail URL, the URL is
non-empty and the record built for that same card is non-empty (so it is
appended too). -/
theorem extract_proj_data_url (c : CardEnv) (u : String)
    (h : (extract_proj_data c).2 = some u) :
    u ≠ "" ∧ (extract_proj_data c).1 ≠ [] := by
  unfold extract_proj_data at h ⊢
  simp only at h ⊢
  obtain ⟨hu, hd⟩ := get_detailed_info_url c.detail u h
  refine ⟨hu, ?_⟩
  simp only [ne_eq, hd, not_false_iff, if_true]
  exact Dict.update_ne_nil _ _ hd

/-- Controller-state invariant tracked by the run: never more detail URLs
than records, and every collected URL non-empty. -/
def StInv (s : ScrState) : Prop :=
  s.detailUrls.length ≤ s.projects.length ∧ ∀ u ∈ s.detailUrls, u ≠ ""

theorem processCard_inv (s : ScrState) (c : CardEnv) (h : StInv s) :
    StInv (processCard s c) := by
  obtain ⟨h1, h2⟩ := h
  cases hu : (extract_proj_data c).2 with
  | none =>
    refine ⟨?_, ?_⟩
    · simp only [processCard, hu, Option.toList_none, List.append_nil]
      split
      · simpa using Nat.le_trans h1 (by simp)
      · exact h1
    · intro v hv
      simp only [processCard, hu, Option.toList_none, List.append_nil] at hv
      exact h2 v hv
  | some u =>
    obtain ⟨hne, hrec⟩ := extract_proj_data_url c u hu
    refine ⟨?_, ?_⟩
    · simp only [processCard, hu, Option.toList_some, ne_eq, hrec, not_false_iff, if_true,
        List.length_append, List.length_cons, List.length_nil]
      omega
    · intro v hv
      simp only [processCard, hu, Option.toList_some] at hv
      rcases List.mem_append.mp hv with hv | hv
      · exact h2 v hv
      · obtain rfl : v = u := List.mem_singleton.mp hv
        exact hne

theorem foldl_processCard_inv (cards : List CardEnv) (s : ScrState) (h : StInv s) :
    StInv (cards.foldl processCard s) := by
  induction cards generalizing s with
  | nil => exact h
  | cons c rest ih => exact ih (processCard s c) (processCard_inv s c h)

theorem scrape_active_proj_inv (s : ScrState) (cards : List CardEnv) (h : StInv s) :
    StInv (scrape_active_proj s cards) :=
  foldl_processCard_inv (cards.take 6) s h

theorem scrape_6_project_inv (pages : List PageEnv) (m : Option Int) (p : Int)
    (s : ScrState) (h : StInv s) :
    StInv (scrape_6_project m p s pages).1 := by
  induction pages generalizing p s with
  | nil => exact h
  | cons pg rest ih =>
    simp only [scrape_6_project]
    split
    · exact h
    · split
      · exact ih (p + 1) _ (scrape_active_proj_inv s pg.cards h)
      · exact scrape_active_proj_inv s pg.cards h

theorem get_projects_inv (st : ScrState) (env : RunEnv) (m : Option Int) (h : StInv st) :
    StInv (get_projects st env m).2 := by
  unfold get_projects
  split
  · exact h
  · split
    · exact h
    · exact scrape_6_project_inv env.pages (some 6) 1 st h

theorem processCard_projects_extend (s : ScrState) (c : CardEnv) :
    s.projects <+: (processCard s c).projects := by
  simp only [processCard]
  split
  · exact ⟨[(extract_proj_data c).1], rfl⟩
  · exact List.prefix_refl _

theorem foldl_processCard_extend (cards : List CardEnv) (s : ScrState) :
    s.projects <+: (cards.foldl processCard s).projects := by
  induction cards generalizing s with
  | nil => exact List.prefix_refl _
  | cons c rest ih =>
    exact (processCard_projects_extend s c).trans (ih (processCard s c))

theorem scrape_6_project_projects_extend (pages : List PageEnv) (m : Option Int)
    (p : Int) (s : ScrState) :
    s.projects <+: (scrape_6_project m p s pages).1.projects := by
  induction pages generalizing p s with
  | nil => exact List.prefix_refl _
  | cons pg rest ih =>
    simp only [scrape_6_project]
    split
    · exact List.prefix_refl _
    · split
      · exact (foldl_processCard_extend (pg.cards.take 6) s).trans (ih (p + 1) _)
      · exact foldl_processCard_extend (pg.cards.take 6) s

/-- `self.projects` only grows across a `get_projects` invocation. -/
theorem get_projects_state_extend (st : ScrState) (env : RunEnv) (m : Option Int) :
    st.projects <+: (get_projects st env m).2.projects := by
  unfold get_projects
  split
  · exact List.prefix_refl _
  · split
    · exact List.prefix_refl _
    · exact scrape_6_project_projects_extend env.pages (some 6) 1 st

/-- The records reported by an invocation are an initial segment of the
controller state it leaves behind. -/
theorem get_projects_data_extend (st : ScrState) (env : RunEnv) (m : Option Int) :
    (get_projects st env m).1.data <+: (get_projects st env m).2.projects := by
  unfold get_projects
  split
  · exact List.nil_prefix
  · split
    · exact List.prefix_refl _
    · exact List.prefix_refl _

/-- When `setup_drive` succeeds, the reported `data` is exactly the
controller's accumulated record list after the call (whether the run
succeeded or hit the exception handler). -/
theorem get_projects_data_of_setup (st : ScrState) (env : RunEnv) (m : Option Int)
    (hs : env.setupOk = true) :
    (get_projects st env m).1.data = (get_projects st env m).2.projects := by
  unfold get_projects
  rw [hs]
  simp only [Bool.not_true, Bool.false_eq_true, if_false]
  split <;> rfl

/-- With a working driver and a first card appearing in time, the run
takes the success path. -/
theorem get_projects_success (st : ScrState) (env : RunEnv) (m : Option Int)
    (hs : env.setupOk = true) (hw : env.waitOk = true) :
    (get_projects st env m).1.success = true := by
  unfold get_projects
  rw [hs, hw]
  rfl

/-- The registration scan is `List.find?` with the
strip-both-sides equality predicate. -/
theorem findByReg_eq_find (l : List Dict) (q : String) :
    findByReg l q =
      l.find? (fun p => pyStrip (p.get "registration_number" "") == pyStrip q) := by
  induction l with
  | nil => rfl
  | cons p rest ih =>
    simp only [findByReg, List.find?]
    by_cases h : pyStrip (p.get "registration_number" "") = pyStrip q
    · simp [h]
    · have hb : (pyStrip (p.get "registration_number" "") == pyStrip q) = false := by
        simpa using h
      simp [h, hb, ih]

theorem splitAtFirstColon_append (k v : List Char) (hk : ':' ∉ k) :
    splitAtFirstColon (k ++ ':' :: v) = (k, v) := by
  induction k with
  | nil => simp [splitAtFirstColon]
  | cons c cs ih =>
    have hc : ¬(c = ':') := fun h => hk (by simp [h])
    have hcs : ':' ∉ cs := fun h => hk (List.mem_cons_of_mem c h)
    simp [splitAtFirstColon, hc, ih hcs]

theorem data_key_colon_value (k v : String) :
    (k ++ ":" ++ v).data = k.data ++ ':' :: v.data := by
  simp [String.data_append]

theorem countColons_key_colon_value (k v : String)
    (hk : countColons k = 0) (hv : countColons v = 0) :
    countColons (k ++ ":" ++ v) = 1 := by
  simp only [countColons] at *
  rw [data_key_colon_value]
  simp [List.count_append, List.count_cons, hk, hv]

theorem splitFirstColon_append (k v : String) (hk : countColons k = 0) :
    splitFirstColon (k ++ ":" ++ v) = (k, v) := by
  have hmem : ':' ∉ k.data := List.count_eq_zero.mp hk
  simp only [splitFirstColon, data_key_colon_value,
    splitAtFirstColon_append k.data v.data hmem]

theorem promoterLine_of_not_single_colon (d : Dict) (line : String)
    (h : countColons (pyStrip line) ≠ 1) : promoterLine d line = d := by
  simp [promoterLine, h]

theorem foldl_promoterLine_of_not_single_colon (lines : List String) (d : Dict)
    (h : ∀ l ∈ lines, countColons (pyStrip l) ≠ 1) :
    lines.foldl promoterLine d = d := by
  induction lines with
  | nil => rfl
  | cons l rest ih =>
    simp only [List.foldl_cons,
      promoterLine_of_not_single_colon d l (h l (List.mem_cons_self l rest))]
    exact ih (fun x hx => h x (List.mem_cons_of_mem l hx))

theorem extract_promoter_content_singleton (t : String) :
    extract_promoter_content (some [t]) = promoterBody [] 0 t := rfl

/-! ### Concrete environments used by witnesses and counterexamples -/

/-- A listing card whose detail view opens in a new window. -/
def elemA : CardElem :=
  ⟨some "Sunshine Residency", some "by ACME Ltd", [], none, some "RP/01/2024 ", none⟩

/-- Card A together with its detail-navigation observations. -/
def cardA : CardEnv :=
  ⟨elemA, ⟨true, "https://rera.example/list",
    NavOutcome.newWindow "https://rera.example/detail/1" []⟩⟩

/-- A one-page, one-card successful run. -/
def envA : RunEnv := ⟨true, true, [⟨[cardA], false⟩]⟩

/-- A second, distinct card for a second invocation. -/
def elemB : CardElem :=
  ⟨some "Lakeview Heights", some "by Beta Homes", [], none, some "RP/02/2024", none⟩

/-- Card B together with its detail-navigation observations. -/
def cardB : CardEnv :=
  ⟨elemB, ⟨true, "https://rera.example/list",
    NavOutcome.newWindow "https://rera.example/detail/2" []⟩⟩

/-- A one-page, one-card successful run seeing card B. -/
def envB : RunEnv := ⟨true, true, [⟨[cardB], false⟩]⟩

/-- A card whose registration-number element is absent. -/
def elemNoReg : CardElem := ⟨some "Hill View", some "by Gamma Infra", [], none, none, none⟩

/-- Successful run over the single card without a registration number. -/
def envNoReg : RunEnv :=
  ⟨true, true, [⟨[⟨elemNoReg, ⟨false, "", NavOutcome.failed []⟩⟩], false⟩]⟩

/-- A run whose initial wait for `.project-card` times out. -/
def envTimeout : RunEnv := ⟨true, false, []⟩

/-- A run where `setup_drive` fails. -/
def envNoDriver : RunEnv := ⟨false, true, []⟩

/-- A successful run that scrapes no pages (used with pre-seeded state). -/
def envEmptyRun : RunEnv := ⟨true, true, []⟩

/-- A listing with 10 pages: 9 enabled "next page" controls. -/
def envNine : RunEnv := ⟨true, true, List.replicate 9 ⟨[], true⟩⟩

/-! ### Claims -/

/-- C1: the spec claims that for every integer `page_cap` supplied to
`get_projects`, the traversal performs at most `page_cap` "next page"
activations (with `page_cap=2`, never more than 2).  The code belies it:
`get_projects` accepts `max_proj` but calls `self.scrape_6_project(6)`
with the literal `6` (scraper.py line 82), so the supplied cap is dead —
the activation count is independent of `max_proj`, and on a listing with
9 available "next" activations a call with `page_cap=2` performs 6
activations, not at most 2.  The parameter, its docstring, `main()`'s
`get_projects(max_proj=2)` call and the HTTP router all treat `max_proj`
as the page cap, so this is a slip in the code rather than in the spec. -/
theorem C1_page_cap_ignored :
    (∀ (env : RunEnv) (m1 m2 : Option Int),
      get_projects_activations env m1 = get_projects_activations env m2) ∧
    get_projects_activations envNine (some 2) = 6 ∧
    ¬ get_projects_activations envNine (some 2) ≤ 2 :=
  ⟨fun _ _ _ => rfl, by decide, by decide⟩

/-- C2 (counterexample): two consecutive `get_projects` invocations on
one controller.  The first collects one record and one URL; the second
reports two records whose first element is the record collected by the
first invocation, and both detail URLs — earlier results leak into later
ones because `self.projects` / `self.detail_urls` are never reset. -/
theorem C2_counterexample :
    ((get_projects ⟨[], []⟩ envA none).1.data).length = 1 ∧
    ((get_projects (get_projects ⟨[], []⟩ envA none).2 envB none).1.data).take 1 =
      (get_projects ⟨[], []⟩ envA none).1.data ∧
    ((get_projects (get_projects ⟨[], []⟩ envA none).2 envB none).1.data).length = 2 ∧
    (get_projects ⟨[], []⟩ envA none).1.detailUrls =
      some ["https://rera.example/detail/1"] ∧
    (get_projects (get_projects ⟨[], []⟩ envA none).2 envB none).1.detailUrls =
      some ["https://rera.example/detail/1", "https://rera.example/detail/2"] := by
  decide

/-- C2 (amended): the controller state is *not* rebuilt fresh: records
accumulate across invocations, and whenever the second invocation's
driver setup succeeds, the records reported by the first invocation are
an initial segment of the records reported by the second. -/
theorem C2_records_persist (st : ScrState) (env1 env2 : RunEnv) (m1 m2 : Option Int)
    (h2 : env2.setupOk = true) :
    (get_projects st env1 m1).1.data <+:
      (get_projects (get_projects st env1 m1).2 env2 m2).1.data := by
  have ha := get_projects_data_extend st env1 m1
  have hb := get_projects_state_extend (get_projects st env1 m1).2 env2 m2
  rw [get_projects_data_of_setup (get_projects st env1 m1).2 env2 m2 h2]
  exact ha.trans hb

/-- Witness for `C2_records_persist` at the concrete two-run input. -/
theorem C2_records_persist_witness :
    envB.setupOk = true ∧
    (get_projects ⟨[], []⟩ envA none).1.data <+:
      (get_projects (get_projects ⟨[], []⟩ envA none).2 envB none).1.data :=
  ⟨rfl, C2_records_persist ⟨[], []⟩ envA envB none none rfl⟩

/-- C3: at the end of any run (from any state already satisfying the
invariant, the fresh controller included), `len(detail_urls) <=
len(records)` and every collected URL is non-empty; moreover every single
card-processing step preserves the invariant (so it holds at every point
during the run), and a step that appends a URL appends exactly that
card's record in the same step — each visited detail URL corresponds to
exactly one record. -/
theorem C3_url_record_invariant (st : ScrState) (env : RunEnv) (m : Option Int)
    (h1 : st.detailUrls.length ≤ st.projects.length)
    (h2 : ∀ u ∈ st.detailUrls, u ≠ "") :
    ((get_projects st env m).2.detailUrls.length ≤
        (get_projects st env m).2.projects.length ∧
      ∀ u ∈ (get_projects st env m).2.detailUrls, u ≠ "") ∧
    (∀ (s : ScrState) (c : CardEnv),
      s.detailUrls.length ≤ s.projects.length →
      (∀ u ∈ s.detailUrls, u ≠ "") →
      ((processCard s c).detailUrls.length ≤ (processCard s c).projects.length ∧
        ∀ u ∈ (processCard s c).detailUrls, u ≠ "")) ∧
    (∀ (s : ScrState) (c : CardEnv) (u : String),
      (processCard s c).detailUrls = s.detailUrls ++ [u] →
      u ≠ "" ∧ (processCard s c).projects = s.projects ++ [(extract_proj_data c).1]) := by
  refine ⟨get_projects_inv st env m ⟨h1, h2⟩, ?_, ?_⟩
  · intro s c hs1 hs2
    exact processCard_inv s c ⟨hs1, hs2⟩
  · intro s c u h
    have hurls : (processCard s c).detailUrls =
        s.detailUrls ++ (extract_proj_data c).2.toList := rfl
    rw [hurls] at h
    have htl : (extract_proj_data c).2.toList = [u] := List.append_cancel_left h
    have hsome : (extract_proj_data c).2 = some u := by
      cases ho : (extract_proj_data c).2 with
      | none => rw [ho] at htl; simp at htl
      | some w =>
        rw [ho] at htl
        simp only [Option.toList_some, List.cons.injEq, and_true] at htl
        rw [htl]
    obtain ⟨hne, hrec⟩ := extract_proj_data_url c u hsome
    refine ⟨hne, ?_⟩
    simp [processCard, hrec]

/-- Witness for `C3_url_record_invariant`: the invariant instantiated at
the fresh controller state and the concrete one-card run. -/
theorem C3_url_record_invariant_witness :
    (([] : List String).length ≤ ([] : List Dict).length) ∧
    ((get_projects ⟨[], []⟩ envA none).2.detailUrls.length ≤
      (get_projects ⟨[], []⟩ envA none).2.projects.length) :=
  ⟨Nat.le_refl 0,
   (C3_url_record_invariant ⟨[], []⟩ envA none (Nat.le_refl 0) (by simp)).1.1⟩

/-- C4 (counterexample): a card whose title is present but whose
`small` (developer) element is missing.  The developer lookup sits in the
same `try` as the title lookup, so its failure aborts the whole card to
`{}` — contradicting the claim that only a failing card-title lookup
yields the empty mapping and that a developer-lookup failure merely
blanks that field. -/
theorem C4_counterexample :
    extract_basic_info ⟨some "Sunshine Residency", none, [], none, none, none⟩ = [] ∧
    (⟨some "Sunshine Residency", none, [], none, none, none⟩ : CardElem).title ≠ none :=
  ⟨rfl, by simp⟩

/-- C4 (amended): `_extract_basic_info` returns the empty mapping exactly
when the card-title lookup *or* the developer (`small`) lookup fails;
when both succeed, the card is never aborted, and a lookup failure of
units, registration number, certificate link, or of every label/value
pair leaves that field as the empty string. -/
theorem C4_empty_iff_title_or_developer (c : CardElem) :
    (extract_basic_info c = [] ↔ c.title = none ∨ c.small = none) ∧
    (c.title ≠ none → c.small ≠ none →
      extract_basic_info c ≠ [] ∧
      (c.units = none → (extract_basic_info c).get "units" "?" = "") ∧
      (c.regNumber = none → (extract_basic_info c).get "registration_number" "?" = "") ∧
      (c.certLink = none → (extract_basic_info c).get "certificate_link" "?" = "") ∧
      (c.labels = [] → (extract_basic_info c).get "address" "?" = "")) := by
  obtain ⟨ot, os, lb, ou, org, oc⟩ := c
  cases ot with
  | none => simp [extract_basic_info]
  | some t =>
    cases os with
    | none => simp [extract_basic_info]
    | some s =>
      refine ⟨by simp [extract_basic_info], fun _ _ => ⟨by simp [extract_basic_info], ?_, ?_, ?_, ?_⟩⟩
      · intro h; subst h; rfl
      · intro h; subst h; rfl
      · intro h; subst h; rfl
      · intro h; subst h; rfl

/-- Witness for `C4_empty_iff_title_or_developer` at a concrete card
with title and developer present and the optional fields absent. -/
theorem C4_empty_iff_title_or_developer_witness :
    ((⟨some "T", some "by D", [], none, none, none⟩ : CardElem).title ≠ none) ∧
    ((⟨some "T", some "by D", [], none, none, none⟩ : CardElem).small ≠ none) ∧
    extract_basic_info ⟨some "T", some "by D", [], none, none, none⟩ ≠ [] ∧
    (extract_basic_info ⟨some "T", some "by D", [], none, none, none⟩).get
      "registration_number" "?" = "" :=
  ⟨by simp, by simp,
   ((C4_empty_iff_title_or_developer ⟨some "T", some "by D", [], none, none, none⟩).2
     (by simp) (by simp)).1,
   ((C4_empty_iff_title_or_developer ⟨some "T", some "by D", [], none, none, none⟩).2
     (by simp) (by simp)).2.2.1 rfl⟩

/-- C5 (counterexample): a timeout run on a controller that already holds
records.  A first successful invocation collects one record; a second
invocation whose initial card wait times out returns `success=false` but
its `data` is *not* empty — the exception handler reports
`self.projects`, which still holds the earlier run's records. -/
theorem C5_counterexample :
    ((get_projects (get_projects ⟨[], []⟩ envA none).2 envTimeout none).1.success
      = false) ∧
    ((get_projects (get_projects ⟨[], []⟩ envA none).2 envTimeout none).1.data ≠ []) := by
  decide

/-- C5 (amended): when the initial wait for a listing card times out, the
run is reported as a failure (never a successful zero-record run), the
exception is absorbed at the controller boundary, and the reported `data`
is the controller's previously accumulated record list — which is empty
exactly on a fresh controller. -/
theorem C5_timeout_reports_failure (st : ScrState) (env : RunEnv) (m : Option Int)
    (hs : env.setupOk = true) (hw : env.waitOk = false) :
    ((get_projects st env m).1.success = false) ∧
    ((get_projects st env m).1.data = st.projects) ∧
    (st.projects = [] → (get_projects st env m).1.data = []) ∧
    ((get_projects st env m).2 = st) := by
  unfold get_projects
  rw [hs, hw]
  simp

/-- Witness for `C5_timeout_reports_failure` at a fresh controller. -/
theorem C5_timeout_reports_failure_witness :
    envTimeout.setupOk = true ∧ envTimeout.waitOk = false ∧
    (get_projects ⟨[], []⟩ envTimeout none).1.success = false ∧
    (get_projects ⟨[], []⟩ envTimeout none).1.data = [] :=
  ⟨rfl, rfl, (C5_timeout_reports_failure ⟨[], []⟩ envTimeout none rfl rfl).1,
   (C5_timeout_reports_failure ⟨[], []⟩ envTimeout none rfl rfl).2.2.1 rfl⟩

/-- C6 (counterexample): exporting with format `"xml"` from a controller
holding no records.  The result is `success=false` with `filename=None`
and no file write, but the effect trace is `[scrapeRun]`: because
`self.projects` is empty, `export_to_format` first runs the entire scrape
— browser/network I/O — and only afterwards rejects the format, contrary
to "rejects the format before any I/O is attempted". -/
theorem C6_counterexample :
    ((export_to_format ⟨[], []⟩ envA "xml" none "20250101_000000").1.success = false) ∧
    ((export_to_format ⟨[], []⟩ envA "xml" none "20250101_000000").1.filename = none) ∧
    ((export_to_format ⟨[], []⟩ envA "xml" none "20250101_000000").2.2 =
      [Effect.scrapeRun]) := by
  decide

/-- C6 (amended): for every format not recognized as json/csv/excel
(case-insensitively), `export_to_format` returns `success=false` with
`filename=None` and performs no file write; the only I/O it may perform
first is the internal full scrape, which happens exactly when no records
were held, and when records are held the state is untouched and no
effect at all occurs. -/
theorem C6_unsupported_format (st : ScrState) (env : RunEnv) (fmt : String)
    (fn : Option String) (ts : String)
    (h1 : pyLower fmt ≠ "csv") (h2 : pyLower fmt ≠ "excel") (h3 : pyLower fmt ≠ "json") :
    ((export_to_format st env fmt fn ts).1.success = false) ∧
    ((export_to_format st env fmt fn ts).1.filename = none) ∧
    ((export_to_format st env fmt fn ts).2.2 = [] ∨
      (export_to_format st env fmt fn ts).2.2 = [Effect.scrapeRun]) ∧
    (st.projects ≠ [] →
      (export_to_format st env fmt fn ts).2.1 = st ∧
      (export_to_format st env fmt fn ts).2.2 = []) := by
  unfold export_to_format exportDispatch
  by_cases hp : st.projects = []
  · simp only [hp, if_true]
    by_cases hsuc : (get_projects st env none).1.success
    · simp only [hsuc, Bool.not_true, Bool.false_eq_true, if_false,
        if_neg h1, if_neg h2, if_neg h3]
      simp [hp]
    · simp only [Bool.not_eq_true] at hsuc
      simp only [hsuc, Bool.not_false, if_true]
      simp [hp]
  · simp only [hp, if_false, if_neg h1, if_neg h2, if_neg h3]
    simp [hp]

/-- Witness for `C6_unsupported_format` with format `"xml"` and records
already held. -/
theorem C6_unsupported_format_witness :
    pyLower "xml" ≠ "csv" ∧ pyLower "xml" ≠ "excel" ∧ pyLower "xml" ≠ "json" ∧
    (export_to_format ⟨[[("k", "v")]], []⟩ envA "xml" none "ts").1.success = false ∧
    (export_to_format ⟨[[("k", "v")]], []⟩ envA "xml" none "ts").1.filename = none ∧
    (export_to_format ⟨[[("k", "v")]], []⟩ envA "xml" none "ts").2.2 = [] :=
  ⟨by decide, by decide, by decide,
   (C6_unsupported_format ⟨[[("k", "v")]], []⟩ envA "xml" none "ts"
     (by decide) (by decide) (by decide)).1,
   (C6_unsupported_format ⟨[[("k", "v")]], []⟩ envA "xml" none "ts"
     (by decide) (by decide) (by decide)).2.1,
   ((C6_unsupported_format ⟨[[("k", "v")]], []⟩ envA "xml" none "ts"
     (by decide) (by decide) (by decide)).2.2.2 (by simp)).2⟩

/-- C7: on a run whose driver setup and initial wait succeed,
`get_project_by_registration` returns the *first* record (in listing
order) whose stored `registration_number`, stripped of surrounding
whitespace, is exactly (case-sensitively) equal to the stripped query,
and a not-found result when no record matches. -/
theorem C7_registration_lookup (st : ScrState) (env : RunEnv) (q : String)
    (hs : env.setupOk = true) (hw : env.waitOk = true) :
    (get_project_by_registration st env q).1 =
      match ((get_projects st env none).1.data).find?
          (fun p => pyStrip (p.get "registration_number" "") == pyStrip q) with
      | some p => RegResult.found p
      | none => RegResult.notFound q := by
  simp only [get_project_by_registration]
  rw [get_projects_success st env none hs hw]
  simp only [Bool.not_true, Bool.false_eq_true, if_false]
  rw [findByReg_eq_find]
  cases hf : ((get_projects st env none).1.data).find?
      (fun p => pyStrip (p.get "registration_number" "") == pyStrip q) with
  | some p => simp [hf]
  | none => simp [hf]

/-- Witness for `C7_registration_lookup`: a record stored with
registration number `"RP/01/2024 "` (trailing space) is found by the
query `"RP/01/2024"`. -/
theorem C7_registration_lookup_witness :
    envEmptyRun.setupOk = true ∧ envEmptyRun.waitOk = true ∧
    ((get_project_by_registration ⟨[[("registration_number", "RP/01/2024 ")]], []⟩
        envEmptyRun "RP/01/2024").1 =
      match ((get_projects ⟨[[("registration_number", "RP/01/2024 ")]], []⟩
          envEmptyRun none).1.data).find?
          (fun p => pyStrip (p.get "registration_number" "") == pyStrip "RP/01/2024") with
      | some p => RegResult.found p
      | none => RegResult.notFound "RP/01/2024") ∧
    ((get_project_by_registration ⟨[[("registration_number", "RP/01/2024 ")]], []⟩
        envEmptyRun "RP/01/2024").1 =
      RegResult.found [("registration_number", "RP/01/2024 ")]) :=
  ⟨rfl, rfl,
   C7_registration_lookup ⟨[[("registration_number", "RP/01/2024 ")]], []⟩
     envEmptyRun "RP/01/2024" rfl rfl,
   by decide⟩

/-- C8 (counterexample): a promoter sub-panel whose text carries
surrounding whitespace.  The extractor stores the *stripped* text
`"Name: Bob"` under the sequential key, not the panel's full text
`"  Name: Bob "` verbatim as the claim states. -/
theorem C8_counterexample :
    ((extract_promoter_content (some ["  Name: Bob "])).get "promoter_card_1" ""
      = "Name: Bob") ∧
    ((extract_promoter_content (some ["  Name: Bob "])).get "promoter_card_1" ""
      ≠ "  Name: Bob ") := by
  decide

/-- C8 (amended): for a promoter sub-panel with text `t`, the extractor
stores the *stripped* text under the sequential key `promoter_card_1`
(when non-empty); a panel none of whose lines has exactly one colon
contributes no key/value entry beyond that, and a single-line panel of
shape `key:value` (exactly one colon) additionally maps the key —
stripped, lower-cased, spaces replaced by underscores and prefixed with
`promoter_` — to the stripped value. -/
theorem C8_trimmed_storage_and_lines (t : String) (h1 : pyStrip t ≠ "") :
    ((∀ line ∈ splitLines (pyStrip t), countColons (pyStrip line) ≠ 1) →
      extract_promoter_content (some [t]) = [("promoter_card_1", pyStrip t)]) ∧
    (∀ (l0 k v : String),
      splitLines (pyStrip t) = [l0] →
      pyStrip l0 = k ++ ":" ++ v →
      countColons k = 0 → countColons v = 0 →
      "promoter_" ++ underscoreSpaces (pyLower (pyStrip k)) ≠ "promoter_card_1" →
      extract_promoter_content (some [t]) =
        [("promoter_card_1", pyStrip t),
         ("promoter_" ++ underscoreSpaces (pyLower (pyStrip k)), pyStrip v)]) := by
  have hbody : extract_promoter_content (some [t]) =
      (splitLines (pyStrip t)).foldl promoterLine
        (Dict.insert [] "promoter_card_1" (pyStrip t)) := by
    rw [extract_promoter_content_singleton]
    simp only [promoterBody, ne_eq, h1, not_false_iff, if_true]
    rfl
  constructor
  · intro hall
    rw [hbody, foldl_promoterLine_of_not_single_colon _ _ hall]
    rfl
  · intro l0 k v hsplit hline hk hv hne
    rw [hbody, hsplit]
    simp only [List.foldl_cons, List.foldl_nil]
    have hcount : countColons (pyStrip l0) = 1 := by
      rw [hline]; exact countColons_key_colon_value k v hk hv
    have hsfc : splitFirstColon (pyStrip l0) = (k, v) := by
      rw [hline]; exact splitFirstColon_append k v hk
    simp only [promoterLine, hcount, if_true, hsfc]
    simp [Dict.insert, Ne.symm hne]

/-- Witness for `C8_trimmed_storage_and_lines` at the single-line panel
`" GST No: 22A "`. -/
theorem C8_trimmed_storage_and_lines_witness :
    (pyStrip " GST No: 22A " ≠ "") ∧
    extract_promoter_content (some [" GST No: 22A "]) =
      [("promoter_card_1", "GST No: 22A"), ("promoter_gst_no", "22A")] := by
  refine ⟨by decide, ?_⟩
  have h := (C8_trimmed_storage_and_lines " GST No: 22A " (by decide)).2
    "GST No: 22A" "GST No" " 22A" (by decide) (by decide) (by decide) (by decide)
    (by decide)
  rw [h]
  decide

/-- C9 (counterexample): a run whose driver setup fails on a controller
already holding one detail URL from an earlier invocation.  The
setup-failure envelope hard-codes `total_urls = 0`, which differs from
the length (1) of the controller's detail-URL list. -/
theorem C9_counterexample :
    ((get_projects (get_projects ⟨[], []⟩ envA none).2 envNoDriver none).1.total_urls
      = 0) ∧
    ((get_projects (get_projects ⟨[], []⟩ envA none).2 envNoDriver none).2.detailUrls.length
      = 1) ∧
    ((get_projects (get_projects ⟨[], []⟩ envA none).2 envNoDriver none).1.total_urls
      ≠ (get_projects (get_projects ⟨[], []⟩ envA none).2 envNoDriver none).2.detailUrls.length) := by
  decide

/-- C9 (amended): in every return path `total_projects` equals
`len(data)`; `total_urls` equals the length of the controller's
detail-URL list whenever driver setup succeeds (success and
caught-exception paths), while the setup-failure path reports the
hard-coded `total_urls = 0` and empty data with the controller state
untouched. -/
theorem C9_envelope_counts (st : ScrState) (env : RunEnv) (m : Option Int) :
    ((get_projects st env m).1.total_projects = (get_projects st env m).1.data.length) ∧
    (env.setupOk = true →
      (get_projects st env m).1.total_urls =
        (get_projects st env m).2.detailUrls.length) ∧
    (env.setupOk = false →
      (get_projects st env m).1.total_urls = 0 ∧
      (get_projects st env m).1.data = [] ∧
      (get_projects st env m).2 = st) := by
  unfold get_projects
  cases hs : env.setupOk with
  | false => simp
  | true =>
    cases hw : env.waitOk with
    | false => simp
    | true => simp

/-- Witness for `C9_envelope_counts` at the concrete one-card run. -/
theorem C9_envelope_counts_witness :
    ((get_projects ⟨[], []⟩ envA none).1.total_projects =
      (get_projects ⟨[], []⟩ envA none).1.data.length) ∧
    ((get_projects ⟨[], []⟩ envA none).1.total_urls =
      (get_projects ⟨[], []⟩ envA none).2.detailUrls.length) :=
  ⟨(C9_envelope_counts ⟨[], []⟩ envA none).1,
   (C9_envelope_counts ⟨[], []⟩ envA none).2.1 rfl⟩

/-- C10: a whitespace-only (or empty) query matches any record whose own
stripped registration field is empty: on a successful run, if the first
such record is `p`, `get_project_by_registration` returns it — records
missing a registration number are retrievable by the empty query. -/
theorem C10_empty_query_lookup (st : ScrState) (env : RunEnv) (q : String) (p : Dict)
    (hs : env.setupOk = true) (hw : env.waitOk = true)
    (hq : pyStrip q = "")
    (hp : ((get_projects st env none).1.data).find?
        (fun r => pyStrip (r.get "registration_number" "") == "") = some p) :
    (get_project_by_registration st env q).1 = RegResult.found p := by
  simp only [get_project_by_registration]
  rw [get_projects_success st env none hs hw]
  simp only [Bool.not_true, Bool.false_eq_true, if_false]
  rw [findByReg_eq_find, hq, hp]

/-- Witness for `C10_empty_query_lookup`: the scraped record whose
registration element was absent (stored as `""`) is returned for the
whitespace query `" "`. -/
theorem C10_empty_query_lookup_witness :
    envNoReg.setupOk = true ∧ envNoReg.waitOk = true ∧ pyStrip " " = "" ∧
    (get_project_by_registration ⟨[], []⟩ envNoReg " ").1 =
      RegResult.found
        [("project_name", "Hill View"), ("developer", "Gamma Infra"), ("address", ""),
         ("project_type", ""), ("started_from", ""), ("possession_by", ""),
         ("units", ""), ("registration_number", ""), ("certificate_link", "")] :=
  ⟨rfl, rfl, by decide,
   C10_empty_query_lookup ⟨[], []⟩ envNoReg " "
     [("project_name", "Hill View"), ("developer", "Gamma Infra"), ("address", ""),
      ("project_type", ""), ("started_from", ""), ("possession_by", ""),
      ("units", ""), ("registration_number", ""), ("certificate_link", "")]
     rfl rfl (by decide) (by decide)⟩
